import Mathlib

/-!
Verification development for the CapitalShop e-commerce backend.

This file gives a shallow embedding, in Lean, of the checkout / order-placement
core of the repository and proves (or refutes) the specification's claims about
it.  The embedded functions mirror, line by line, the following source:

* `src/controllers/productController.js` — `checkout` (explicit item list) and
  `checkoutFromCart` (cart-based), including their precondition checks, the
  per-item validation loop that decrements stock, order creation, and cart
  clearing;
* the order controller's `placeOrder` (cart-based variant mounted at
  `/api/orders/checkout`);
* `src/controllers/cartController.js` — `applyDiscount`.

Modelling conventions:
* MongoDB collections become association lists keyed by id strings; `findById`
  / `findOne` become list lookup, `save` of a loaded document becomes an
  in-place replacement of the entry, `findOneAndDelete` removes the first
  matching entry.
* JS numbers holding money are modelled as `ℚ`; stock counts and quantities as
  `ℕ`.  `parseFloat(x.toFixed(2))` becomes rounding half-up at two decimals.
* `createError(status, message)` / `res.status(status).json({error})` become an
  `Except (ℕ × String)` result carrying the exact message template from the
  source; the controller returns the result together with the (possibly
  mutated) store state.
* Each `await` in the JS source is a point where other requests may interleave;
  the two-phase machine `stepReq`/`runSchedule` below makes the read
  (`findById`) and write (`save`) halves of the per-product stock mutation
  explicit in order to analyse concurrent executions.
-/

namespace CapitalShop

/-- Product document (`src/models/product.js`): the fields the checkout core
reads — `name`, `price`, `stock`, `isActive`. -/
structure Product where
  name : String
  price : ℚ
  stock : ℕ
  isActive : Bool
deriving DecidableEq, Repr

/-- One cart line (`cart.items` entries): a product reference and a quantity. -/
structure CartItem where
  product : String
  quantity : ℕ
deriving DecidableEq, Repr

/-- Cart document: `items` plus the `totalAmount` field that
`checkoutFromCart` resets to zero. -/
structure Cart where
  items : List CartItem
  totalAmount : ℚ
deriving DecidableEq, Repr

/-- One request line of the explicit-items `checkout` body:
`{ productId, quantity }`. -/
structure ReqItem where
  productId : String
  quantity : ℕ
deriving DecidableEq, Repr

/-- Shipping address with the five fields validated by both checkout
controllers. -/
structure ShippingAddress where
  street : String
  city : String
  state : String
  zipCode : String
  country : String
deriving DecidableEq, Repr

/-- Order line as pushed by `checkout` / `checkoutFromCart`:
`{ product, quantity, price }` — the price is the snapshot taken from the live
product at commit time. -/
structure OrderItem where
  product : String
  quantity : ℕ
  price : ℚ
deriving DecidableEq, Repr

/-- Order document as created by `checkout` / `checkoutFromCart`. -/
structure Order where
  user : String
  items : List OrderItem
  totalAmount : ℚ
  shippingAddress : Option ShippingAddress
  paymentMethod : String
  paymentStatus : String
  orderStatus : String
deriving DecidableEq, Repr

/-- Order line as pushed by the order controller's `placeOrder`:
`{ product: product._id, quantity: item.quantity }` — note that no price field
is recorded. -/
structure POrderItem where
  product : String
  quantity : ℕ
deriving DecidableEq, Repr

/-- Order document as created by `placeOrder`:
`{ user, products, totalAmount }`. -/
structure POrder where
  user : String
  products : List POrderItem
  totalAmount : ℚ
deriving DecidableEq, Repr

/-- Discount document (`src/models/discount.js`); `expiresAt` is a timestamp
modelled as `ℕ`. -/
structure Discount where
  code : String
  discountType : String
  amount : ℚ
  expiresAt : ℕ
  isActive : Bool
deriving DecidableEq, Repr

/-- `findById` / `findOne({user})`: first entry of the association list with
the given key. -/
def lookupA {α : Type} : List (String × α) → String → Option α
  | [], _ => none
  | (a, b) :: rest, k => if a = k then some b else lookupA rest k

/-- `document.save()` for a loaded document: replace the stored value at the
document's key. -/
def setAssoc {α : Type} : List (String × α) → String → α → List (String × α)
  | [], _, _ => []
  | (a, b) :: rest, k, v =>
    if a = k then (k, v) :: setAssoc rest k v else (a, b) :: setAssoc rest k v

/-- `findOneAndDelete`: remove the first entry with the given key. -/
def removeAssoc {α : Type} : List (String × α) → String → List (String × α)
  | [], _ => []
  | (a, b) :: rest, k => if a = k then rest else (a, b) :: removeAssoc rest k

/-- The persistent store visible to the checkout core: products, per-user
carts, orders written by the product controller, orders written by the order
controller, and discount codes. -/
structure St where
  products : List (String × Product)
  carts : List (String × Cart)
  orders : List Order
  porders : List POrder
  discounts : List Discount
deriving DecidableEq, Repr

/-- `!shippingAddress || !shippingAddress.street || ... || !shippingAddress.country`
from both checkout controllers (a missing object or any empty field is
falsy). -/
def addressIncomplete : Option ShippingAddress → Bool
  | none => true
  | some a =>
    a.street = "" || a.city = "" || a.state = "" || a.zipCode = "" || a.country = ""

/-- `['card', 'paypal', 'cash_on_delivery'].includes(paymentMethod)`. -/
def validPayment (pm : String) : Bool :=
  pm = "card" || pm = "paypal" || pm = "cash_on_delivery"

/-- The per-item loop of `checkout` (productController.js lines 498–529):
validate each `{productId, quantity}`, look the product up, check activity and
stock, accumulate the order line and total, then decrement stock and save the
product *before moving to the next item*.  The updated product list is
returned even when a later item fails, because each `product.save()` has
already persisted. -/
def processItems :
    List (String × Product) → List ReqItem → List OrderItem → ℚ →
      Except (ℕ × String) (List OrderItem × ℚ) × List (String × Product)
  | prods, [], acc, total => (.ok (acc, total), prods)
  | prods, item :: rest, acc, total =>
    if item.productId = "" ∨ item.quantity < 1 then
      (.error (400, "Each item must have a valid productId and quantity"), prods)
    else
      match lookupA prods item.productId with
      | none =>
        (.error (404, "Product with ID " ++ item.productId ++ " not found"), prods)
      | some p =>
        if !p.isActive then
          (.error (400, "Product " ++ p.name ++ " is not available"), prods)
        else if p.stock < item.quantity then
          (.error (400, "Insufficient stock for " ++ p.name ++ ". Available: "
            ++ toString p.stock), prods)
        else
          processItems
            (setAssoc prods item.productId { p with stock := p.stock - item.quantity })
            rest
            (acc ++ [{ product := item.productId, quantity := item.quantity,
                       price := p.price }])
            (total + p.price * (item.quantity : ℚ))

/-- `exports.checkout` (productController.js lines 475–562): validate items,
address and payment method in that order, run the per-item loop, then create
and save the order.  On a loop failure the already-saved stock decrements
remain in the store. -/
def checkout (s : St) (userId : String) (items : List ReqItem)
    (shippingAddress : Option ShippingAddress) (paymentMethod : String) :
    Except (ℕ × String) Order × St :=
  if items = [] then
    (.error (400, "Items are required"), s)
  else if addressIncomplete shippingAddress then
    (.error (400, "Complete shipping address is required"), s)
  else if !validPayment paymentMethod then
    (.error (400, "Valid payment method is required"), s)
  else
    match processItems s.products items [] 0 with
    | (.error e, prods) => (.error e, { s with products := prods })
    | (.ok (orderItems, totalAmount), prods) =>
      let order : Order :=
        { user := userId
          items := orderItems
          totalAmount := totalAmount
          shippingAddress := shippingAddress
          paymentMethod := paymentMethod
          paymentStatus :=
            if paymentMethod = "cash_on_delivery" then "pending" else "pending"
          orderStatus := "pending" }
      (.ok order, { s with products := prods, orders := s.orders ++ [order] })

/-- The per-item loop of `checkoutFromCart` (lines 590–613): items come from
the populated cart, so a dangling product reference surfaces as the generic
500 of the surrounding catch block; otherwise check activity and stock,
accumulate, decrement and save as in `processItems`. -/
def processCartItems :
    List (String × Product) → List CartItem → List OrderItem → ℚ →
      Except (ℕ × String) (List OrderItem × ℚ) × List (String × Product)
  | prods, [], acc, total => (.ok (acc, total), prods)
  | prods, ci :: rest, acc, total =>
    match lookupA prods ci.product with
    | none => (.error (500, "Failed to process cart checkout"), prods)
    | some p =>
      if !p.isActive then
        (.error (400, "Product " ++ p.name ++ " is not available"), prods)
      else if p.stock < ci.quantity then
        (.error (400, "Insufficient stock for " ++ p.name ++ ". Available: "
          ++ toString p.stock), prods)
      else
        processCartItems
          (setAssoc prods ci.product { p with stock := p.stock - ci.quantity })
          rest
          (acc ++ [{ product := ci.product, quantity := ci.quantity,
                     price := p.price }])
          (total + p.price * (ci.quantity : ℚ))

/-- `exports.checkoutFromCart` (productController.js lines 565–651): validate
address then payment method, load the cart (absent or empty cart → "Cart is
empty"), run the per-item loop, create and save the order, and only then clear
the cart (`cart.items = []; cart.totalAmount = 0`). -/
def checkoutFromCart (s : St) (userId : String)
    (shippingAddress : Option ShippingAddress) (paymentMethod : String) :
    Except (ℕ × String) Order × St :=
  if addressIncomplete shippingAddress then
    (.error (400, "Complete shipping address is required"), s)
  else if !validPayment paymentMethod then
    (.error (400, "Valid payment method is required"), s)
  else
    match lookupA s.carts userId with
    | none => (.error (400, "Cart is empty"), s)
    | some cart =>
      if cart.items = [] then
        (.error (400, "Cart is empty"), s)
      else
        match processCartItems s.products cart.items [] 0 with
        | (.error e, prods) => (.error e, { s with products := prods })
        | (.ok (orderItems, totalAmount), prods) =>
          let order : Order :=
            { user := userId
              items := orderItems
              totalAmount := totalAmount
              shippingAddress := shippingAddress
              paymentMethod := paymentMethod
              paymentStatus :=
                if paymentMethod = "cash_on_delivery" then "pending" else "pending"
              orderStatus := "pending" }
          (.ok order,
            { s with products := prods
                     orders := s.orders ++ [order]
                     carts := setAssoc s.carts userId { items := [], totalAmount := 0 } })

/-- The per-item loop of the order controller's `placeOrder`: look each cart
item's product up (`404` if missing — no `isActive` check in this variant),
check stock, decrement and save, and push `{ product, quantity }` — with no
price field. -/
def placeOrderLoop :
    List (String × Product) → List CartItem → List POrderItem → ℚ →
      Except (ℕ × String) (List POrderItem × ℚ) × List (String × Product)
  | prods, [], acc, total => (.ok (acc, total), prods)
  | prods, item :: rest, acc, total =>
    match lookupA prods item.product with
    | none => (.error (404, "Product not found for ID: " ++ item.product), prods)
    | some p =>
      if p.stock < item.quantity then
        (.error (400, "Not enough stock for " ++ p.name), prods)
      else
        placeOrderLoop
          (setAssoc prods item.product { p with stock := p.stock - item.quantity })
          rest
          (acc ++ [{ product := item.product, quantity := item.quantity }])
          (total + p.price * (item.quantity : ℚ))

/-- The order controller's `exports.placeOrder` (mounted at
`/api/orders/checkout`): load the cart (absent or empty → "Cart is empty"),
run the loop, save the order `{ user, products, totalAmount }`, then delete
the cart.  On a loop failure the already-saved stock decrements remain. -/
def placeOrder (s : St) (userId : String) : Except (ℕ × String) POrder × St :=
  match lookupA s.carts userId with
  | none => (.error (400, "Cart is empty"), s)
  | some cart =>
    if cart.items = [] then
      (.error (400, "Cart is empty"), s)
    else
      match placeOrderLoop s.products cart.items [] 0 with
      | (.error e, prods) => (.error e, { s with products := prods })
      | (.ok (orderItems, totalAmount), prods) =>
        let order : POrder :=
          { user := userId, products := orderItems, totalAmount := totalAmount }
        (.ok order,
          { s with products := prods
                   porders := s.porders ++ [order]
                   carts := removeAssoc s.carts userId })

/-- `parseFloat(x.toFixed(2))` on the non-negative amounts produced by the
discount evaluator: round to two decimal places, ties away from zero. -/
def roundTo2 (q : ℚ) : ℚ :=
  ((q * 100 + 1 / 2).floor : ℚ) / 100

/-- `Discount.findOne({ code, isActive: true, expiresAt: { $gt: new Date() } })`:
first discount matching the code that is active and unexpired. -/
def findDiscount : List Discount → String → ℕ → Option Discount
  | [], _, _ => none
  | d :: rest, code, now =>
    if d.code = code ∧ d.isActive ∧ now < d.expiresAt then some d
    else findDiscount rest code now

/-- `cart.items.reduce((sum, item) => sum + item.product.price * item.quantity, 0)`
over the populated cart; `none` when a populated product is missing (the JS
expression would throw). -/
def cartSubtotal (prods : List (String × Product)) :
    List CartItem → ℚ → Option ℚ
  | [], acc => some acc
  | ci :: rest, acc =>
    match lookupA prods ci.product with
    | none => none
    | some p => cartSubtotal prods rest (acc + p.price * (ci.quantity : ℚ))

/-- `exports.applyDiscount` (cartController.js lines 168–190): look the code up
(active and unexpired), load the cart (absent or empty → "Cart is empty"),
compute the subtotal, apply `fixed` (floored at zero) or `percentage` (with
`toFixed(2)` rounding), and answer `{ total, discountApplied }`.  Nothing is
saved: the state is returned unchanged on every path. -/
def applyDiscount (s : St) (now : ℕ) (userId code : String) :
    Except (ℕ × String) (ℚ × String) × St :=
  match findDiscount s.discounts code now with
  | none => (.error (400, "Invalid or expired discount code"), s)
  | some d =>
    match lookupA s.carts userId with
    | none => (.error (400, "Cart is empty"), s)
    | some cart =>
      if cart.items = [] then
        (.error (400, "Cart is empty"), s)
      else
        match cartSubtotal s.products cart.items 0 with
        | none =>
          (.error (500, "Cannot read properties of null (reading price)"), s)
        | some total =>
          let adjusted :=
            if d.discountType = "fixed" then max 0 (total - d.amount)
            else if d.discountType = "percentage" then
              roundTo2 (total * (1 - d.amount / 100))
            else total
          (.ok (adjusted, d.code), s)

/-- `exports.updateProduct` (productController.js lines 275–315) restricted to
a price change: `findByIdAndUpdate(id, { $set: { price } })`.  Used to show
that committed orders are insulated from later price changes. -/
def updateProductPrice (s : St) (pid : String) (newPrice : ℚ) : St :=
  match lookupA s.products pid with
  | none => s
  | some p => { s with products := setAssoc s.products pid { p with price := newPrice } }

/-!
Two-phase machine for the stock mutation used by `checkout`,
`checkoutFromCart` and `placeOrder`.  In the source the per-product mutation is

  `const product = await Product.findById(...)` — read the stock snapshot;
  `if (product.stock < quantity) ...`          — check the snapshot;
  `product.stock -= quantity; await product.save()` — write snapshot − quantity.

The read (together with the check, which runs synchronously on the snapshot)
and the write are separated by an `await`, so two concurrent requests may
interleave between them.  `StockReq` is the per-request program counter and
`runSchedule` executes an explicit interleaving of two requests against one
product record.
-/

/-- State of one in-flight stock mutation: the requested quantity, the stock
snapshot taken by its read phase, and the final outcome. -/
structure StockReq where
  quantity : ℕ
  localStock : Option ℕ
  outcome : Option Bool
deriving DecidableEq, Repr

/-- One scheduler step of a request against the shared stock record: the first
step reads the stock and performs the insufficient-stock check on the
snapshot; the second step persists `snapshot − quantity` and reports
success.  A finished request does nothing. -/
def stepReq (stock : ℕ) (r : StockReq) : ℕ × StockReq :=
  match r.localStock, r.outcome with
  | none, _ =>
    if stock < r.quantity then
      (stock, { r with localStock := some stock, outcome := some false })
    else
      (stock, { r with localStock := some stock })
  | some snap, none =>
    (snap - r.quantity, { r with outcome := some true })
  | some _, some _ => (stock, r)

/-- Shared product stock plus two concurrent requests. -/
structure ConcState where
  stock : ℕ
  r1 : StockReq
  r2 : StockReq
deriving DecidableEq, Repr

/-- Run a schedule: `true` steps the first request, `false` the second. -/
def runSchedule : List Bool → ConcState → ConcState
  | [], c => c
  | b :: rest, c =>
    if b then
      let (st, r) := stepReq c.stock c.r1
      runSchedule rest { c with stock := st, r1 := r }
    else
      let (st, r) := stepReq c.stock c.r2
      runSchedule rest { c with stock := st, r2 := r }

/-- Sum of `quantity × price` over a list of order lines. -/
def sumLines (l : List OrderItem) : ℚ :=
  (l.map fun o => (o.quantity : ℚ) * o.price).sum

/-- A complete shipping address used by the concrete executions. -/
def exAddr : ShippingAddress :=
  { street := "5 Main", city := "Lagos", state := "LA", zipCode := "100001",
    country := "NG" }

/-- A shipping address with an empty `city`, hence incomplete. -/
def exAddrNoCity : ShippingAddress :=
  { street := "5 Main", city := "", state := "LA", zipCode := "100001",
    country := "NG" }

/-- Store with two active one-unit products and no carts. -/
def exStTwo : St :=
  { products := [("a", { name := "A", price := 5, stock := 1, isActive := true }),
                 ("b", { name := "B", price := 3, stock := 1, isActive := true })]
    carts := []
    orders := []
    porders := []
    discounts := [] }

/-- Store with one product of stock 5 and price 10 and a cart holding three
units of it. -/
def exStCart3 : St :=
  { products := [("p", { name := "P", price := 10, stock := 5, isActive := true })]
    carts := [("u", { items := [{ product := "p", quantity := 3 }], totalAmount := 0 })]
    orders := []
    porders := []
    discounts := [] }

/-- Store with one product of stock 1 and a cart requesting two units. -/
def exStShort : St :=
  { products := [("a", { name := "A", price := 10, stock := 1, isActive := true })]
    carts := [("u", { items := [{ product := "a", quantity := 2 }], totalAmount := 0 })]
    orders := []
    porders := []
    discounts := [] }

/-- Empty store. -/
def exStEmpty : St :=
  { products := [], carts := [], orders := [], porders := [], discounts := [] }

end CapitalShop

namespace CapitalShop

instance {ε α : Type} [DecidableEq ε] [DecidableEq α] : DecidableEq (Except ε α) :=
  fun x y =>
    match x, y with
    | .ok a, .ok b =>
      if h : a = b then isTrue (congrArg Except.ok h)
      else isFalse fun hh => h (Except.ok.inj hh)
    | .ok _, .error _ => isFalse fun hh => Except.noConfusion hh
    | .error _, .ok _ => isFalse fun hh => Except.noConfusion hh
    | .error a, .error b =>
      if h : a = b then isTrue (congrArg Except.error h)
      else isFalse fun hh => h (Except.error.inj hh)

theorem lookupA_setAssoc_ne {α : Type} (l : List (String × α)) {k k' : String}
    (h : k' ≠ k) (v : α) : lookupA (setAssoc l k v) k' = lookupA l k' := by
  induction l with
  | nil => simp [setAssoc]
  | cons hd tl ih =>
    obtain ⟨a, b⟩ := hd
    by_cases hak : a = k
    · subst hak
      have hne : ¬a = k' := fun hh => h hh.symm
      simp [setAssoc, lookupA, hne, ih]
    · by_cases hk'a : a = k'
      · subst hk'a
        simp [setAssoc, lookupA, hak]
      · simp [setAssoc, lookupA, hak, hk'a, ih]

theorem lookupA_setAssoc_self {α : Type} (l : List (String × α)) {k : String}
    {p : α} (hp : lookupA l k = some p) (v : α) :
    lookupA (setAssoc l k v) k = some v := by
  induction l with
  | nil => simp [lookupA] at hp
  | cons hd tl ih =>
    obtain ⟨a, b⟩ := hd
    by_cases hak : a = k
    · subst hak
      simp [setAssoc, lookupA]
    · simp only [lookupA, if_neg hak] at hp
      simp [setAssoc, lookupA, hak, ih hp]

theorem processItems_ok_total (items : List ReqItem) :
    ∀ (prods prods' : List (String × Product)) (acc lines : List OrderItem)
      (total t : ℚ),
      processItems prods items acc total = (.ok (lines, t), prods') →
      t + sumLines acc = total + sumLines lines := by
  induction items with
  | nil =>
    intro prods prods' acc lines total t h
    simp only [processItems, Prod.mk.injEq, Except.ok.injEq] at h
    obtain ⟨⟨h1, h2⟩, _⟩ := h
    subst h1; subst h2; ring
  | cons item rest ih =>
    intro prods prods' acc lines total t h
    simp only [processItems] at h
    split at h
    · simp at h
    · split at h
      · simp at h
      · split at h
        · simp at h
        · split at h
          · simp at h
          · have := ih _ _ _ _ _ _ h
            simp only [sumLines, List.map_append, List.sum_append, List.map_cons,
              List.map_nil, List.sum_cons, List.sum_nil] at this ⊢
            linarith

theorem processCartItems_ok_total (items : List CartItem) :
    ∀ (prods prods' : List (String × Product)) (acc lines : List OrderItem)
      (total t : ℚ),
      processCartItems prods items acc total = (.ok (lines, t), prods') →
      t + sumLines acc = total + sumLines lines := by
  induction items with
  | nil =>
    intro prods prods' acc lines total t h
    simp only [processCartItems, Prod.mk.injEq, Except.ok.injEq] at h
    obtain ⟨⟨h1, h2⟩, _⟩ := h
    subst h1; subst h2; ring
  | cons item rest ih =>
    intro prods prods' acc lines total t h
    simp only [processCartItems] at h
    split at h
    · simp at h
    · split at h
      · simp at h
      · split at h
        · simp at h
        · have := ih _ _ _ _ _ _ h
          simp only [sumLines, List.map_append, List.sum_append, List.map_cons,
            List.map_nil, List.sum_cons, List.sum_nil] at this ⊢
          linarith

theorem processItems_ok_price_snapshot (items : List ReqItem) :
    ∀ (prods prods' : List (String × Product)) (acc lines : List OrderItem)
      (total t : ℚ),
      processItems prods items acc total = (.ok (lines, t), prods') →
      ∀ o ∈ lines, o ∈ acc ∨
        ∃ p, lookupA prods o.product = some p ∧ o.price = p.price := by
  induction items with
  | nil =>
    intro prods prods' acc lines total t h o ho
    simp only [processItems, Prod.mk.injEq, Except.ok.injEq] at h
    obtain ⟨⟨h1, _⟩, _⟩ := h
    subst h1
    exact Or.inl ho
  | cons item rest ih =>
    intro prods prods' acc lines total t h o ho
    simp only [processItems] at h
    split at h
    · simp at h
    · split at h
      · simp at h
      · rename_i p hp
        split at h
        · simp at h
        · split at h
          · simp at h
          · rcases ih _ _ _ _ _ _ h o ho with hacc | ⟨p', hp', hprice⟩
            · rcases List.mem_append.mp hacc with hl | hr
              · exact Or.inl hl
              · refine Or.inr ⟨p, ?_, ?_⟩
                · simpa [List.mem_singleton.mp hr] using hp
                · simp [List.mem_singleton.mp hr]
            · by_cases hk : o.product = item.productId
              · refine Or.inr ⟨p, by simpa [hk] using hp, ?_⟩
                rw [hk, lookupA_setAssoc_self _ hp] at hp'
                simp only [Option.some.injEq] at hp'
                rw [hprice, ← hp']
              · refine Or.inr ⟨p', ?_, hprice⟩
                rwa [lookupA_setAssoc_ne _ hk] at hp'

theorem processCartItems_ok_price_snapshot (items : List CartItem) :
    ∀ (prods prods' : List (String × Product)) (acc lines : List OrderItem)
      (total t : ℚ),
      processCartItems prods items acc total = (.ok (lines, t), prods') →
      ∀ o ∈ lines, o ∈ acc ∨
        ∃ p, lookupA prods o.product = some p ∧ o.price = p.price := by
  induction items with
  | nil =>
    intro prods prods' acc lines total t h o ho
    simp only [processCartItems, Prod.mk.injEq, Except.ok.injEq] at h
    obtain ⟨⟨h1, _⟩, _⟩ := h
    subst h1
    exact Or.inl ho
  | cons item rest ih =>
    intro prods prods' acc lines total t h o ho
    simp only [processCartItems] at h
    split at h
    · simp at h
    · rename_i p hp
      split at h
      · simp at h
      · split at h
        · simp at h
        · rcases ih _ _ _ _ _ _ h o ho with hacc | ⟨p', hp', hprice⟩
          · rcases List.mem_append.mp hacc with hl | hr
            · exact Or.inl hl
            · refine Or.inr ⟨p, ?_, ?_⟩
              · simpa [List.mem_singleton.mp hr] using hp
              · simp [List.mem_singleton.mp hr]
          · by_cases hk : o.product = item.product
            · refine Or.inr ⟨p, by simpa [hk] using hp, ?_⟩
              rw [hk, lookupA_setAssoc_self _ hp] at hp'
              simp only [Option.some.injEq] at hp'
              rw [hprice, ← hp']
            · refine Or.inr ⟨p', ?_, hprice⟩
              rwa [lookupA_setAssoc_ne _ hk] at hp'

/-- Claim C1 (code bug): a two-item `checkout` whose second item fails stock
validation aborts without creating an order, yet the first item's stock
decrement has already been persisted — with products A and B both of stock 1,
requesting one A and two B yields the insufficient-stock error for B while A's
stored stock has dropped from 1 to 0.  The claim (and the spec's atomicity
requirement) says the stock of items before the failing one must be unchanged. -/
theorem checkout_partial_decrement_persists :
    (checkout exStTwo "u" [{ productId := "a", quantity := 1 },
        { productId := "b", quantity := 2 }] (some exAddr) "card").1
      = .error (400, "Insufficient stock for B. Available: 1") ∧
    (checkout exStTwo "u" [{ productId := "a", quantity := 1 },
        { productId := "b", quantity := 2 }] (some exAddr) "card").2.orders = [] ∧
    (lookupA exStTwo.products "a").map Product.stock = some 1 ∧
    (lookupA (checkout exStTwo "u" [{ productId := "a", quantity := 1 },
        { productId := "b", quantity := 2 }] (some exAddr) "card").2.products "a").map
        Product.stock = some 0 :=
  of_decide_eq_true (by with_unfolding_all rfl)

/-- Claim C2 (code bug): the stock mutation of the checkout controllers is a
read (`findById`, with the sufficiency check on the snapshot) followed by a
separate write (`save` of snapshot − quantity).  Run serially, two requests
for the last unit behave correctly (one succeeds, one fails); but under the
interleaving read₁, read₂, write₁, write₂ — possible because the two phases
are separated by an `await` — both requests succeed against stock 1 and the
final stock is 0, losing one of the two successful decrements.  The claim says
the mutation is atomic and at most one such request can succeed. -/
theorem stock_mutation_race_both_succeed :
    ((runSchedule [true, true, false, false]
        { stock := 1, r1 := { quantity := 1, localStock := none, outcome := none },
          r2 := { quantity := 1, localStock := none, outcome := none } }).r1.outcome
        = some true ∧
      (runSchedule [true, true, false, false]
        { stock := 1, r1 := { quantity := 1, localStock := none, outcome := none },
          r2 := { quantity := 1, localStock := none, outcome := none } }).r2.outcome
        = some false) ∧
    ((runSchedule [true, false, true, false]
        { stock := 1, r1 := { quantity := 1, localStock := none, outcome := none },
          r2 := { quantity := 1, localStock := none, outcome := none } }).r1.outcome
        = some true ∧
      (runSchedule [true, false, true, false]
        { stock := 1, r1 := { quantity := 1, localStock := none, outcome := none },
          r2 := { quantity := 1, localStock := none, outcome := none } }).r2.outcome
        = some true ∧
      (runSchedule [true, false, true, false]
        { stock := 1, r1 := { quantity := 1, localStock := none, outcome := none },
          r2 := { quantity := 1, localStock := none, outcome := none } }).stock = 0) := by
  decide

/-- Claim C3: every order committed by `checkout` or `checkoutFromCart` has
`totalAmount` equal to the sum over its lines of quantity × recorded price. -/
theorem order_totalAmount_eq_sumLines :
    (∀ (s : St) (u : String) (items : List ReqItem) (addr : Option ShippingAddress)
        (pm : String) (o : Order) (s' : St),
        checkout s u items addr pm = (.ok o, s') → o.totalAmount = sumLines o.items) ∧
    (∀ (s : St) (u : String) (addr : Option ShippingAddress) (pm : String)
        (o : Order) (s' : St),
        checkoutFromCart s u addr pm = (.ok o, s') → o.totalAmount = sumLines o.items) := by
  constructor
  · intro s u items addr pm o s' h
    simp only [checkout] at h
    split at h
    · simp at h
    · split at h
      · simp at h
      · split at h
        · simp at h
        · split at h
          · simp at h
          · rename_i lines total prods heq
            simp only [Prod.mk.injEq, Except.ok.injEq] at h
            obtain ⟨ho, _⟩ := h
            subst ho
            have := processItems_ok_total items _ _ _ _ _ _ heq
            simpa [sumLines] using this
  · intro s u addr pm o s' h
    simp only [checkoutFromCart] at h
    split at h
    · simp at h
    · split at h
      · simp at h
      · split at h
        · simp at h
        · split at h
          · simp at h
          · split at h
            · simp at h
            · rename_i lines total prods heq
              simp only [Prod.mk.injEq, Except.ok.injEq] at h
              obtain ⟨ho, _⟩ := h
              subst ho
              have := processCartItems_ok_total _ _ _ _ _ _ _ heq
              simpa [sumLines] using this

/-- Witness for C3: the concrete checkout of three units at price 10 commits
an order whose `totalAmount` equals the sum over its lines. -/
theorem order_totalAmount_eq_sumLines_witness :
    ({ user := "u", items := [{ product := "p", quantity := 3, price := 10 }],
       totalAmount := 30, shippingAddress := some exAddr, paymentMethod := "card",
       paymentStatus := "pending", orderStatus := "pending" } : Order).totalAmount
      = sumLines [{ product := "p", quantity := 3, price := 10 }] :=
  order_totalAmount_eq_sumLines.2 exStCart3 "u" (some exAddr) "card"
    { user := "u", items := [{ product := "p", quantity := 3, price := 10 }],
      totalAmount := 30, shippingAddress := some exAddr, paymentMethod := "card",
      paymentStatus := "pending", orderStatus := "pending" }
    { products := [("p", { name := "P", price := 10, stock := 2, isActive := true })]
      carts := [("u", { items := [], totalAmount := 0 })]
      orders := [{ user := "u", items := [{ product := "p", quantity := 3, price := 10 }],
                   totalAmount := 30, shippingAddress := some exAddr,
                   paymentMethod := "card", paymentStatus := "pending",
                   orderStatus := "pending" }]
      porders := []
      discounts := [] }
    (of_decide_eq_true (by with_unfolding_all rfl))

/-- Store for the C4 counterexample: product A priced 5, a cart with one unit
of it. -/
def exStPrice5 : St :=
  { products := [("a", { name := "A", price := 5, stock := 3, isActive := true })]
    carts := [("u", { items := [{ product := "a", quantity := 1 }], totalAmount := 0 })]
    orders := []
    porders := []
    discounts := [] }

/-- Same store as `exStPrice5` except that product A is priced 7. -/
def exStPrice7 : St :=
  { products := [("a", { name := "A", price := 7, stock := 3, isActive := true })]
    carts := [("u", { items := [{ product := "a", quantity := 1 }], totalAmount := 0 })]
    orders := []
    porders := []
    discounts := [] }

/-- Counterexample to claim C4 as stated: `placeOrder` (a cited source of the
claim) commits orders whose lines are `{ product, quantity }` with no price
field at all.  Committing the same cart against a product priced 5 and against
a product priced 7 yields orders with *identical* line lists — the lines
record no price snapshot; only `totalAmount` differs. -/
theorem placeOrder_no_price_snapshot :
    (placeOrder exStPrice5 "u").1
      = .ok { user := "u", products := [{ product := "a", quantity := 1 }],
              totalAmount := 5 } ∧
    (placeOrder exStPrice7 "u").1
      = .ok { user := "u", products := [{ product := "a", quantity := 1 }],
              totalAmount := 7 } ∧
    ({ user := "u", products := [{ product := "a", quantity := 1 }],
       totalAmount := 5 } : POrder).products
      = ({ user := "u", products := [{ product := "a", quantity := 1 }],
           totalAmount := 7 } : POrder).products :=
  of_decide_eq_true (by with_unfolding_all rfl)

/-- Claim C4 (amended): every order line committed by `checkout` or
`checkoutFromCart` records as its price the live price of the referenced
product in the pre-checkout store (the commit-time snapshot), and a later
price change through the product-update operation rewrites only the product
store — committed orders (of either kind) and carts are untouched, so stored
lines and `totalAmount` are insulated from it.  (`placeOrder` lines record no
price at all; see the counterexample.) -/
theorem order_lines_price_snapshot :
    (∀ (s : St) (u : String) (items : List ReqItem) (addr : Option ShippingAddress)
        (pm : String) (o : Order) (s' : St),
        checkout s u items addr pm = (.ok o, s') →
        ∀ line ∈ o.items,
          ∃ p, lookupA s.products line.product = some p ∧ line.price = p.price) ∧
    (∀ (s : St) (u : String) (addr : Option ShippingAddress) (pm : String)
        (o : Order) (s' : St),
        checkoutFromCart s u addr pm = (.ok o, s') →
        ∀ line ∈ o.items,
          ∃ p, lookupA s.products line.product = some p ∧ line.price = p.price) ∧
    (∀ (s : St) (pid : String) (newPrice : ℚ),
        (updateProductPrice s pid newPrice).orders = s.orders ∧
        (updateProductPrice s pid newPrice).porders = s.porders ∧
        (updateProductPrice s pid newPrice).carts = s.carts) := by
  refine ⟨?_, ?_, ?_⟩
  · intro s u items addr pm o s' h line hline
    simp only [checkout] at h
    split at h
    · simp at h
    · split at h
      · simp at h
      · split at h
        · simp at h
        · split at h
          · simp at h
          · rename_i lines total prods heq
            simp only [Prod.mk.injEq, Except.ok.injEq] at h
            obtain ⟨ho, _⟩ := h
            subst ho
            rcases processItems_ok_price_snapshot items _ _ _ _ _ _ heq line hline with
              habs | hgood
            · simp at habs
            · exact hgood
  · intro s u addr pm o s' h line hline
    simp only [checkoutFromCart] at h
    split at h
    · simp at h
    · split at h
      · simp at h
      · split at h
        · simp at h
        · split at h
          · simp at h
          · split at h
            · simp at h
            · rename_i lines total prods heq
              simp only [Prod.mk.injEq, Except.ok.injEq] at h
              obtain ⟨ho, _⟩ := h
              subst ho
              rcases processCartItems_ok_price_snapshot _ _ _ _ _ _ _ heq line hline with
                habs | hgood
              · simp at habs
              · exact hgood
  · intro s pid newPrice
    cases h : lookupA s.products pid <;> simp [updateProductPrice, h]

/-- Witness for C4: in the concrete cart checkout of `exStCart3`, the single
committed line carries price 10, the live price of product "p" before the
checkout. -/
theorem order_lines_price_snapshot_witness :
    ∃ p, lookupA exStCart3.products
        ({ product := "p", quantity := 3, price := 10 } : OrderItem).product = some p ∧
      ({ product := "p", quantity := 3, price := 10 } : OrderItem).price = p.price :=
  order_lines_price_snapshot.2.1 exStCart3 "u" (some exAddr) "card"
    { user := "u", items := [{ product := "p", quantity := 3, price := 10 }],
      totalAmount := 30, shippingAddress := some exAddr, paymentMethod := "card",
      paymentStatus := "pending", orderStatus := "pending" }
    { products := [("p", { name := "P", price := 10, stock := 2, isActive := true })]
      carts := [("u", { items := [], totalAmount := 0 })]
      orders := [{ user := "u", items := [{ product := "p", quantity := 3, price := 10 }],
                   totalAmount := 30, shippingAddress := some exAddr,
                   paymentMethod := "card", paymentStatus := "pending",
                   orderStatus := "pending" }]
      porders := []
      discounts := [] }
    (of_decide_eq_true (by with_unfolding_all rfl))
    { product := "p", quantity := 3, price := 10 }
    (by simp)

/-- Claim C5: checking out a cart holding exactly three units of a product
with stock 5, with a complete address and a valid payment method, commits an
order with `totalAmount = 3 × price`, leaves the product with stock 2, empties
the cart, and appends exactly that order. -/
theorem checkoutFromCart_scenario_stock5_qty3
    (s : St) (u pid : String) (addr : Option ShippingAddress) (pm : String)
    (cart : Cart) (p : Product)
    (hcart : lookupA s.carts u = some cart)
    (hitems : cart.items = [{ product := pid, quantity := 3 }])
    (hp : lookupA s.products pid = some p)
    (hactive : p.isActive = true)
    (hstock : p.stock = 5)
    (haddr : addressIncomplete addr = false)
    (hpm : validPayment pm = true) :
    ∃ o s', checkoutFromCart s u addr pm = (.ok o, s') ∧
      o.totalAmount = 3 * p.price ∧
      (lookupA s'.products pid).map Product.stock = some 2 ∧
      lookupA s'.carts u = some { items := [], totalAmount := 0 } ∧
      s'.orders = s.orders ++ [o] := by
  have hloop : processCartItems s.products [{ product := pid, quantity := 3 }] [] 0 =
      (.ok ([{ product := pid, quantity := 3, price := p.price }],
          0 + p.price * ((3 : ℕ) : ℚ)),
        setAssoc s.products pid { p with stock := p.stock - 3 }) := by
    simp [processCartItems, hp, hactive, hstock]
  have hmain : checkoutFromCart s u addr pm =
      (.ok { user := u, items := [{ product := pid, quantity := 3, price := p.price }],
             totalAmount := 0 + p.price * ((3 : ℕ) : ℚ), shippingAddress := addr,
             paymentMethod := pm,
             paymentStatus := if pm = "cash_on_delivery" then "pending" else "pending",
             orderStatus := "pending" },
        { s with
            products := setAssoc s.products pid { p with stock := p.stock - 3 }
            orders := s.orders ++
              [{ user := u, items := [{ product := pid, quantity := 3, price := p.price }],
                 totalAmount := 0 + p.price * ((3 : ℕ) : ℚ), shippingAddress := addr,
                 paymentMethod := pm,
                 paymentStatus := if pm = "cash_on_delivery" then "pending" else "pending",
                 orderStatus := "pending" }]
            carts := setAssoc s.carts u { items := [], totalAmount := 0 } }) := by
    simp [checkoutFromCart, haddr, hpm, hcart, hitems, hloop]
  refine ⟨_, _, hmain, ?_, ?_, ?_, ?_⟩
  · show (0 : ℚ) + p.price * ((3 : ℕ) : ℚ) = 3 * p.price
    push_cast
    ring
  · show (lookupA (setAssoc s.products pid { p with stock := p.stock - 3 }) pid).map
      Product.stock = some 2
    rw [lookupA_setAssoc_self _ hp]
    simp [hstock]
  · exact lookupA_setAssoc_self _ hcart _
  · rfl

/-- Witness for C5: the concrete store `exStCart3` (product "p", price 10,
stock 5; cart of three units) satisfies the scenario. -/
theorem checkoutFromCart_scenario_stock5_qty3_witness :
    ∃ o s', checkoutFromCart exStCart3 "u" (some exAddr) "card" = (.ok o, s') ∧
      o.totalAmount = 3 * (10 : ℚ) ∧
      (lookupA s'.products "p").map Product.stock = some 2 ∧
      lookupA s'.carts "u" = some { items := [], totalAmount := 0 } ∧
      s'.orders = exStCart3.orders ++ [o] :=
  checkoutFromCart_scenario_stock5_qty3 exStCart3 "u" "p" (some exAddr) "card"
    { items := [{ product := "p", quantity := 3 }], totalAmount := 0 }
    { name := "P", price := 10, stock := 5, isActive := true }
    (by decide) (by decide) (by decide) (by decide) (by decide) (by decide) (by decide)

theorem processCartItems_append (xs ys : List CartItem) :
    ∀ (prods : List (String × Product)) (acc : List OrderItem) (total : ℚ),
      processCartItems prods (xs ++ ys) acc total =
        match processCartItems prods xs acc total with
        | (.ok (lines, t), prods') => processCartItems prods' ys lines t
        | (.error e, prods') => (.error e, prods') := by
  induction xs with
  | nil =>
    intro prods acc total
    simp [processCartItems]
  | cons x rest ih =>
    intro prods acc total
    cases h : lookupA prods x.product with
    | none => simp [processCartItems, h]
    | some p =>
      by_cases h1 : p.isActive = true
      · by_cases h2 : p.stock < x.quantity
        · simp [processCartItems, h, h1, h2]
        · simp [processCartItems, h, h1, h2, ih]
      · simp [processCartItems, h, h1]

/-- Counterexample to claim C6 as stated: `placeOrder` (mounted at
`/api/orders/checkout`, a cited source of the claim) rejects an insufficient
cart of two units against stock 1 with the message "Not enough stock for A" —
the character 1 (the available quantity) occurs nowhere in it, so the error
does not identify the available quantity.  The state is returned unchanged
and no order is created. -/
theorem placeOrder_error_lacks_available :
    placeOrder exStShort "u" = (.error (400, "Not enough stock for A"), exStShort) ∧
    ("Not enough stock for A".toList.contains (Char.ofNat 49)) = false :=
  of_decide_eq_true (by with_unfolding_all rfl)

/-- Claim C6 (amended): when a cart line requests more than the current stock
at the point the loop reaches it, `checkoutFromCart` rejects the request with
an error naming the offending product and its available quantity (for the
first line this leaves the entire state unchanged), while `placeOrder` rejects
with an error naming only the product; in the single-line insufficient case
both leave the store unchanged and create no order. -/
theorem insufficient_stock_rejection :
    (∀ (s : St) (u : String) (addr : Option ShippingAddress) (pm : String)
        (cart : Cart) (pre rest : List CartItem) (bad : CartItem)
        (lines : List OrderItem) (t : ℚ) (prods' : List (String × Product))
        (p : Product),
        addressIncomplete addr = false → validPayment pm = true →
        lookupA s.carts u = some cart → cart.items = pre ++ bad :: rest →
        processCartItems s.products pre [] 0 = (.ok (lines, t), prods') →
        lookupA prods' bad.product = some p → p.isActive = true →
        p.stock < bad.quantity →
        checkoutFromCart s u addr pm =
          (.error (400, "Insufficient stock for " ++ p.name ++ ". Available: "
              ++ toString p.stock),
            { s with products := prods' })) ∧
    (∀ (s : St) (u : String) (addr : Option ShippingAddress) (pm : String)
        (cart : Cart) (bad : CartItem) (p : Product),
        addressIncomplete addr = false → validPayment pm = true →
        lookupA s.carts u = some cart → cart.items = [bad] →
        lookupA s.products bad.product = some p → p.isActive = true →
        p.stock < bad.quantity →
        checkoutFromCart s u addr pm =
          (.error (400, "Insufficient stock for " ++ p.name ++ ". Available: "
              ++ toString p.stock), s)) ∧
    (∀ (s : St) (u : String) (cart : Cart) (bad : CartItem) (p : Product),
        lookupA s.carts u = some cart → cart.items = [bad] →
        lookupA s.products bad.product = some p → p.stock < bad.quantity →
        placeOrder s u = (.error (400, "Not enough stock for " ++ p.name), s)) := by
  have key : ∀ (s : St) (u : String) (addr : Option ShippingAddress) (pm : String)
      (cart : Cart) (pre rest : List CartItem) (bad : CartItem)
      (lines : List OrderItem) (t : ℚ) (prods' : List (String × Product))
      (p : Product),
      addressIncomplete addr = false → validPayment pm = true →
      lookupA s.carts u = some cart → cart.items = pre ++ bad :: rest →
      processCartItems s.products pre [] 0 = (.ok (lines, t), prods') →
      lookupA prods' bad.product = some p → p.isActive = true →
      p.stock < bad.quantity →
      checkoutFromCart s u addr pm =
        (.error (400, "Insufficient stock for " ++ p.name ++ ". Available: "
            ++ toString p.stock),
          { s with products := prods' }) := by
    intro s u addr pm cart pre rest bad lines t prods' p haddr hpm hcart hitems hpre
      hbad hactive hstock
    have hloop : processCartItems s.products cart.items [] 0 =
        (.error (400, "Insufficient stock for " ++ p.name ++ ". Available: "
          ++ toString p.stock), prods') := by
      rw [hitems, processCartItems_append, hpre]
      simp [processCartItems, hbad, hactive, hstock]
    have hnonempty : cart.items ≠ [] := by
      rw [hitems]
      simp
    simp [checkoutFromCart, haddr, hpm, hcart, hnonempty, hloop]
  refine ⟨key, ?_, ?_⟩
  · intro s u addr pm cart bad p haddr hpm hcart hitems hbad hactive hstock
    have := key s u addr pm cart [] [] bad [] 0 s.products p haddr hpm hcart
      (by simpa using hitems) (by simp [processCartItems]) hbad hactive hstock
    simpa using this
  · intro s u cart bad p hcart hitems hbad hstock
    have hloop : placeOrderLoop s.products cart.items [] 0 =
        (.error (400, "Not enough stock for " ++ p.name), s.products) := by
      rw [hitems]
      simp [placeOrderLoop, hbad, hstock]
    have hnonempty : cart.items ≠ [] := by
      rw [hitems]
      simp
    simp [placeOrder, hcart, hnonempty, hloop]

/-- Witness for C6 (amended): the concrete single-line cart requesting two
units of product A with stock 1 is rejected by `checkoutFromCart` with the
message naming A and the available quantity 1, and the store is unchanged. -/
theorem insufficient_stock_rejection_witness :
    checkoutFromCart exStShort "u" (some exAddr) "card"
      = (.error (400, "Insufficient stock for " ++ "A" ++ ". Available: "
          ++ toString (1 : ℕ)), exStShort) :=
  insufficient_stock_rejection.2.1 exStShort "u" (some exAddr) "card"
    { items := [{ product := "a", quantity := 2 }], totalAmount := 0 }
    { product := "a", quantity := 2 }
    { name := "A", price := 10, stock := 1, isActive := true }
    (by decide) (by decide) (by decide) (by decide) (by decide) (by decide) (by decide)

/-- Counterexample to claim C7 as stated: `checkoutFromCart` validates the
shipping address before looking at the cart, so a request with an empty cart
(no cart exists for the user in `exStEmpty`) *and* an incomplete address is
rejected with the address error, not the empty-cart error. -/
theorem checkoutFromCart_address_error_before_cart :
    checkoutFromCart exStEmpty "u" (some exAddrNoCity) "card"
      = (.error (400, "Complete shipping address is required"), exStEmpty) ∧
    ("Complete shipping address is required" : String) ≠ "Cart is empty" :=
  of_decide_eq_true (by with_unfolding_all rfl)

/-- Claim C7 (amended): preconditions are checked fail-fast, but in different
orders per endpoint — `checkout` checks the item list, then the address, then
the payment method; `checkoutFromCart` checks the address, then the payment
method, and only then cart non-emptiness.  Hence an empty cart with an
incomplete address yields the items error on `checkout` and the address error
on `checkoutFromCart`. -/
theorem precondition_check_order :
    (∀ (s : St) (u : String) (addr : Option ShippingAddress) (pm : String),
        checkout s u [] addr pm = (.error (400, "Items are required"), s)) ∧
    (∀ (s : St) (u : String) (items : List ReqItem) (addr : Option ShippingAddress)
        (pm : String), items ≠ [] → addressIncomplete addr = true →
        checkout s u items addr pm
          = (.error (400, "Complete shipping address is required"), s)) ∧
    (∀ (s : St) (u : String) (items : List ReqItem) (addr : Option ShippingAddress)
        (pm : String), items ≠ [] → addressIncomplete addr = false →
        validPayment pm = false →
        checkout s u items addr pm
          = (.error (400, "Valid payment method is required"), s)) ∧
    (∀ (s : St) (u : String) (addr : Option ShippingAddress) (pm : String),
        addressIncomplete addr = true →
        checkoutFromCart s u addr pm
          = (.error (400, "Complete shipping address is required"), s)) ∧
    (∀ (s : St) (u : String) (addr : Option ShippingAddress) (pm : String),
        addressIncomplete addr = false → validPayment pm = false →
        checkoutFromCart s u addr pm
          = (.error (400, "Valid payment method is required"), s)) ∧
    (∀ (s : St) (u : String) (addr : Option ShippingAddress) (pm : String),
        addressIncomplete addr = false → validPayment pm = true →
        (lookupA s.carts u = none ∨
          lookupA s.carts u = some { items := [], totalAmount := 0 } ) →
        checkoutFromCart s u addr pm = (.error (400, "Cart is empty"), s)) := by
  refine ⟨?_, ?_, ?_, ?_, ?_, ?_⟩
  · intro s u addr pm
    simp [checkout]
  · intro s u items addr pm hitems haddr
    simp [checkout, hitems, haddr]
  · intro s u items addr pm hitems haddr hpm
    simp [checkout, hitems, haddr, hpm]
  · intro s u addr pm haddr
    simp [checkoutFromCart, haddr]
  · intro s u addr pm haddr hpm
    simp [checkoutFromCart, haddr, hpm]
  · intro s u addr pm haddr hpm hcart
    rcases hcart with hnone | hempty
    · simp [checkoutFromCart, haddr, hpm, hnone]
    · simp [checkoutFromCart, haddr, hpm, hempty]

/-- Witness for C7 (amended): concrete instances — an empty item list on
`checkout` gives the items error even with an incomplete address, and an
incomplete address on `checkoutFromCart` gives the address error even with an
absent cart. -/
theorem precondition_check_order_witness :
    checkout exStEmpty "u" [] (some exAddrNoCity) "card"
      = (.error (400, "Items are required"), exStEmpty) ∧
    checkoutFromCart exStEmpty "u" (some exAddrNoCity) "card"
      = (.error (400, "Complete shipping address is required"), exStEmpty) :=
  ⟨precondition_check_order.1 exStEmpty "u" (some exAddrNoCity) "card",
    precondition_check_order.2.2.2.1 exStEmpty "u" (some exAddrNoCity) "card" (by decide)⟩

/-- Claim C8: `checkoutFromCart` and `placeOrder` touch the cart store only
after the order is committed — every failing execution leaves the cart store
(and the order ledger) exactly as it was, even when stock decrements have
persisted, and every successful execution appends exactly the committed order
and then empties (respectively deletes) the user's cart. -/
theorem cart_cleared_only_on_commit :
    (∀ (s : St) (u : String) (addr : Option ShippingAddress) (pm : String)
        (e : ℕ × String) (s' : St),
        checkoutFromCart s u addr pm = (.error e, s') →
        s'.carts = s.carts ∧ s'.orders = s.orders) ∧
    (∀ (s : St) (u : String) (addr : Option ShippingAddress) (pm : String)
        (o : Order) (s' : St),
        checkoutFromCart s u addr pm = (.ok o, s') →
        s'.orders = s.orders ++ [o] ∧
        s'.carts = setAssoc s.carts u { items := [], totalAmount := 0 }) ∧
    (∀ (s : St) (u : String) (e : ℕ × String) (s' : St),
        placeOrder s u = (.error e, s') →
        s'.carts = s.carts ∧ s'.porders = s.porders) ∧
    (∀ (s : St) (u : String) (o : POrder) (s' : St),
        placeOrder s u = (.ok o, s') →
        s'.porders = s.porders ++ [o] ∧ s'.carts = removeAssoc s.carts u) := by
  refine ⟨?_, ?_, ?_, ?_⟩
  · intro s u addr pm e s' h
    simp only [checkoutFromCart] at h
    split at h
    · simp at h
      obtain ⟨_, rfl⟩ := h
      exact ⟨rfl, rfl⟩
    · split at h
      · simp at h
        obtain ⟨_, rfl⟩ := h
        exact ⟨rfl, rfl⟩
      · split at h
        · simp at h
          obtain ⟨_, rfl⟩ := h
          exact ⟨rfl, rfl⟩
        · split at h
          · simp at h
            obtain ⟨_, rfl⟩ := h
            exact ⟨rfl, rfl⟩
          · split at h
            · simp at h
              obtain ⟨_, rfl⟩ := h
              exact ⟨rfl, rfl⟩
            · simp at h
  · intro s u addr pm o s' h
    simp only [checkoutFromCart] at h
    split at h
    · simp at h
    · split at h
      · simp at h
      · split at h
        · simp at h
        · split at h
          · simp at h
          · split at h
            · simp at h
            · simp only [Prod.mk.injEq, Except.ok.injEq] at h
              obtain ⟨rfl, rfl⟩ := h
              exact ⟨rfl, rfl⟩
  · intro s u e s' h
    simp only [placeOrder] at h
    split at h
    · simp at h
      obtain ⟨_, rfl⟩ := h
      exact ⟨rfl, rfl⟩
    · split at h
      · simp at h
        obtain ⟨_, rfl⟩ := h
        exact ⟨rfl, rfl⟩
      · split at h
        · simp at h
          obtain ⟨_, rfl⟩ := h
          exact ⟨rfl, rfl⟩
        · simp at h
  · intro s u o s' h
    simp only [placeOrder] at h
    split at h
    · simp at h
    · split at h
      · simp at h
      · split at h
        · simp at h
        · simp only [Prod.mk.injEq, Except.ok.injEq] at h
          obtain ⟨rfl, rfl⟩ := h
          exact ⟨rfl, rfl⟩

/-- Witness for C8: the concrete failing cart checkout of `exStShort`
(insufficient stock) leaves carts and orders untouched. -/
theorem cart_cleared_only_on_commit_witness :
    (checkoutFromCart exStShort "u" (some exAddr) "card").2.carts
        = exStShort.carts ∧
    (checkoutFromCart exStShort "u" (some exAddr) "card").2.orders
        = exStShort.orders :=
  cart_cleared_only_on_commit.1 exStShort "u" (some exAddr) "card"
    (400, "Insufficient stock for A. Available: 1")
    (checkoutFromCart exStShort "u" (some exAddr) "card").2
    (of_decide_eq_true (by with_unfolding_all rfl))

theorem findDiscount_spec (l : List Discount) (code : String) (now : ℕ)
    (d : Discount) (h : findDiscount l code now = some d) :
    d.code = code ∧ d.isActive = true ∧ now < d.expiresAt := by
  induction l with
  | nil => simp [findDiscount] at h
  | cons hd tl ih =>
    simp only [findDiscount] at h
    split at h
    · rename_i hcond
      simp only [Option.some.injEq] at h
      subst h
      exact ⟨hcond.1, hcond.2.1, hcond.2.2⟩
    · exact ih h

/-- Store for the C9 counterexample: a cart holding one unit of a product
priced 1/20 (five cents) and an active, unexpired 10-percent discount. -/
def exStTiny : St :=
  { products := [("p", { name := "P", price := 1/20, stock := 5, isActive := true })]
    carts := [("u", { items := [{ product := "p", quantity := 1 }], totalAmount := 0 })]
    orders := []
    porders := []
    discounts := [{ code := "SAVE10", discountType := "percentage", amount := 10,
                    expiresAt := 100, isActive := true }] }

/-- Counterexample to claim C9 as stated: applying the active, unexpired
10-percent code "SAVE10" to the cart subtotal 1/20 quotes 1/20 (the code
rounds via `toFixed(2)`: 0.045 rounds to 0.05), which differs from the exact
value `s × (1 − a/100) = 9/200 = 0.045` the claim requires. -/
theorem applyDiscount_percentage_rounds :
    applyDiscount exStTiny 0 "u" "SAVE10" = (.ok (1/20, "SAVE10"), exStTiny) ∧
    ((1 : ℚ)/20) ≠ (1/20 * (1 - 10/100) : ℚ) :=
  of_decide_eq_true (by with_unfolding_all rfl)

/-- Claim C9 (amended): for a discount found active and unexpired against a
non-empty cart with subtotal `total`, a `fixed` discount quotes
`max 0 (total − amount)` and a `percentage` discount quotes
`total × (1 − amount/100)` rounded to two decimal places (ties up); the
operation persists nothing — the store it returns is the one it was given. -/
theorem applyDiscount_quote (s : St) (now : ℕ) (u code : String) (d : Discount)
    (cart : Cart) (total : ℚ)
    (hd : findDiscount s.discounts code now = some d)
    (hcart : lookupA s.carts u = some cart)
    (hne : cart.items ≠ [])
    (htot : cartSubtotal s.products cart.items 0 = some total) :
    d.isActive = true ∧ now < d.expiresAt ∧
    (d.discountType = "fixed" →
      applyDiscount s now u code = (.ok (max 0 (total - d.amount), d.code), s)) ∧
    (d.discountType = "percentage" →
      applyDiscount s now u code
        = (.ok (roundTo2 (total * (1 - d.amount / 100)), d.code), s)) ∧
    (applyDiscount s now u code).2 = s := by
  obtain ⟨-, hact, hexp⟩ := findDiscount_spec _ _ _ _ hd
  refine ⟨hact, hexp, ?_, ?_, ?_⟩
  · intro hfix
    simp [applyDiscount, hd, hcart, hne, htot, hfix]
  · intro hperc
    simp [applyDiscount, hd, hcart, hne, htot, hperc]
  · simp only [applyDiscount, hd, hcart, hne, htot]
    split
    · rfl
    · split
      · rfl
      · rfl

/-- Store for the C9 witness: the spec scenario — subtotal 100 and the
10-percent code "SAVE10". -/
def exStHundred : St :=
  { products := [("p", { name := "P", price := 100, stock := 5, isActive := true })]
    carts := [("u", { items := [{ product := "p", quantity := 1 }], totalAmount := 0 })]
    orders := []
    porders := []
    discounts := [{ code := "SAVE10", discountType := "percentage", amount := 10,
                    expiresAt := 100, isActive := true }] }

/-- Witness for C9 (amended): "SAVE10" on the subtotal-100 cart quotes the
rounded value, which here is exactly 90. -/
theorem applyDiscount_quote_witness :
    applyDiscount exStHundred 0 "u" "SAVE10"
      = (.ok (roundTo2 (100 * (1 - (10 : ℚ) / 100)), "SAVE10"), exStHundred) ∧
    roundTo2 (100 * (1 - (10 : ℚ) / 100)) = 90 :=
  ⟨((applyDiscount_quote exStHundred 0 "u" "SAVE10"
      { code := "SAVE10", discountType := "percentage", amount := 10,
        expiresAt := 100, isActive := true }
      { items := [{ product := "p", quantity := 1 }], totalAmount := 0 }
      100
      (by decide) (by decide) (by decide)
      (of_decide_eq_true (by with_unfolding_all rfl))).2.2.2.1 rfl),
    of_decide_eq_true (by with_unfolding_all rfl)⟩

/-- Claim C10: every order committed by `checkout` or `checkoutFromCart` has
`paymentStatus = "pending"` and `orderStatus = "pending"`, whatever the
payment method — the source's conditional
`paymentMethod === 'cash_on_delivery' ? 'pending' : 'pending'` yields
"pending" in both arms. -/
theorem order_statuses_pending :
    (∀ (s : St) (u : String) (items : List ReqItem) (addr : Option ShippingAddress)
        (pm : String) (o : Order) (s' : St),
        checkout s u items addr pm = (.ok o, s') →
        o.paymentStatus = "pending" ∧ o.orderStatus = "pending") ∧
    (∀ (s : St) (u : String) (addr : Option ShippingAddress) (pm : String)
        (o : Order) (s' : St),
        checkoutFromCart s u addr pm = (.ok o, s') →
        o.paymentStatus = "pending" ∧ o.orderStatus = "pending") := by
  constructor
  · intro s u items addr pm o s' h
    simp only [checkout] at h
    split at h
    · simp at h
    · split at h
      · simp at h
      · split at h
        · simp at h
        · split at h
          · simp at h
          · simp only [Prod.mk.injEq, Except.ok.injEq] at h
            obtain ⟨ho, -⟩ := h
            subst ho
            constructor
            · show (if pm = "cash_on_delivery" then "pending" else "pending") = "pending"
              split
              · rfl
              · rfl
            · rfl
  · intro s u addr pm o s' h
    simp only [checkoutFromCart] at h
    split at h
    · simp at h
    · split at h
      · simp at h
      · split at h
        · simp at h
        · split at h
          · simp at h
          · split at h
            · simp at h
            · simp only [Prod.mk.injEq, Except.ok.injEq] at h
              obtain ⟨ho, -⟩ := h
              subst ho
              constructor
              · show (if pm = "cash_on_delivery" then "pending" else "pending") = "pending"
                split
                · rfl
                · rfl
              · rfl

/-- Witness for C10: the concrete "card" cart checkout of `exStCart3` commits
an order with both statuses "pending". -/
theorem order_statuses_pending_witness :
    ({ user := "u", items := [{ product := "p", quantity := 3, price := 10 }],
       totalAmount := 30, shippingAddress := some exAddr, paymentMethod := "card",
       paymentStatus := "pending", orderStatus := "pending" } : Order).paymentStatus
        = "pending" ∧
    ({ user := "u", items := [{ product := "p", quantity := 3, price := 10 }],
       totalAmount := 30, shippingAddress := some exAddr, paymentMethod := "card",
       paymentStatus := "pending", orderStatus := "pending" } : Order).orderStatus
        = "pending" :=
  order_statuses_pending.2 exStCart3 "u" (some exAddr) "card"
    { user := "u", items := [{ product := "p", quantity := 3, price := 10 }],
      totalAmount := 30, shippingAddress := some exAddr, paymentMethod := "card",
      paymentStatus := "pending", orderStatus := "pending" }
    { products := [("p", { name := "P", price := 10, stock := 2, isActive := true })]
      carts := [("u", { items := [], totalAmount := 0 })]
      orders := [{ user := "u", items := [{ product := "p", quantity := 3, price := 10 }],
                   totalAmount := 30, shippingAddress := some exAddr,
                   paymentMethod := "card", paymentStatus := "pending",
                   orderStatus := "pending" }]
      porders := []
      discounts := [] }
    (of_decide_eq_true (by with_unfolding_all rfl))

end CapitalShop
